import Mathlib

/-
  Verification development for the Solttery repository (a Solana lottery
  server).  The definitions below are a shallow embedding of the state
  machine in src/index.js (the primary variant; src/unnamed/part_003 is a
  duplicate of its logic), together with the payout routine of the
  src/unnamed/part_002 variant where it differs.  JS numbers that hold SOL
  amounts are idealized as exact rationals; lamport amounts are integers, as
  in the source.  External ledger interactions (getTransaction, getBalance,
  getFeeForMessage, sendAndConfirmTransaction, crypto.randomInt) are modelled
  as oracle inputs, and each operation additionally reports the observable
  side effects it performed (snapshots saved, error broadcast payload,
  submission attempts) so that claims about ordering and persistence can be
  stated.
-/

namespace Solttery

/-- Round status strings used by the server: Active, Processing, Complete, Error. -/
inductive Status where
  | Active
  | Processing
  | Complete
  | Error
deriving DecidableEq, Repr

/-- solanaWeb3.LAMPORTS_PER_SOL. -/
def LAMPORTS_PER_SOL : ℕ := 1000000000

/-- index.js line 13: 0.01 * LAMPORTS_PER_SOL (exact in IEEE doubles). -/
def LOTTERY_ENTRY_AMOUNT : ℕ := 10000000

/-- index.js line 14: 0.04 * LAMPORTS_PER_SOL. -/
def WINNING_PAYOUT : ℕ := 40000000

/-- index.js line 15. -/
def MAX_PARTICIPANTS : ℕ := 5

/-- index.js line 19. -/
def MAX_TRANSACTIONS_SEEN : ℕ := 1000

/-- index.js line 20. -/
def MINIMUM_FEE_LAMPORTS : ℕ := 5000

/-- The lotteryState object (index.js lines 40-49).  The transactionsSeen JS
Set is modelled as an insertion-ordered duplicate-free list; pool and balance
are JS numbers holding SOL amounts, idealized as exact rationals. -/
structure LState where
  participants : List String
  pool : ℚ
  status : Status
  winner : Option String
  transactionsSeen : List String
  recentDepositors : List String
  pastWinners : List String
  balance : ℚ
deriving DecidableEq, Repr

/-- tx.meta of a fetched transaction: err flag and the pre/post lamport
balances indexed by account position. -/
structure TxMeta where
  err : Bool
  preBalances : List ℤ
  postBalances : List ℤ
deriving DecidableEq, Repr

/-- A getTransaction result: account keys (position 0 = fee payer / sender,
position 1 = recipient in the code) and optional meta. -/
structure TxRecord where
  accountKeys : List String
  meta : Option TxMeta
deriving DecidableEq, Repr

/-- Ledger responses consumed by one pickWinner call in index.js:
crypto.randomInt result, getFeeForMessage().value (none models null),
getBalance in lamports, and whether sendAndConfirmTransaction succeeds. -/
structure DrawOracle where
  randomIndex : ℕ
  feeValue : Option ℕ
  balance : ℕ
  sendResult : Bool
deriving DecidableEq, Repr

/-- Observable outcome of a draw: final state, the snapshots handed to
saveState in order, the broadcastState error payload if one was sent, how
many times sendAndConfirmTransaction was invoked, which participant the
random index selected, and whether a reset was scheduled via setTimeout. -/
structure DrawOut where
  state : LState
  saved : List LState
  errorBroadcast : Option String
  attempts : ℕ
  selected : Option String
  resetScheduled : Bool
deriving DecidableEq, Repr

/-- JS  v || d  on a nullable number: null and 0 are both falsy. -/
def jsOrNat (v : Option ℕ) (d : ℕ) : ℕ :=
  match v with
  | none => d
  | some 0 => d
  | some k => k

/-- unshift followed by  if (length > 5) pop() : keep the first five,
dropping the last element when the list overflows. -/
def capFive (l : List String) : List String :=
  if l.length > 5 then l.dropLast else l

/-- transactionsSeen.add(sig) followed by the eviction of the oldest entry
when the size exceeds MAX_TRANSACTIONS_SEEN (index.js lines 177-181).
Only called on a signature that is not yet in the window. -/
def dedupInsert (seen : List String) (sig : String) : List String :=
  if (seen ++ [sig]).length > MAX_TRANSACTIONS_SEEN then (seen ++ [sig]).tail
  else seen ++ [sig]

/-- pickWinner of src/index.js (lines 106-151).  Control flow: set status to
Processing, broadcast, save; draw winnerIndex with crypto.randomInt over
[0, participants.length) and read the participant (an empty range makes
randomInt throw, landing in the catch); fetch a blockhash and build the
transfer; the feasibility check  balance < WINNING_PAYOUT + (feeEstimate.value
|| MINIMUM_FEE_LAMPORTS)  throws; a single sendAndConfirmTransaction call;
on success set winner, status Complete, push winner to pastWinners (cap 5),
save, broadcast, schedule reset; the catch block sets status Error and
broadcasts the failure reason but does not call saveState, then schedules a
reset. -/
def pickWinner (st : LState) (o : DrawOracle) : DrawOut :=
  match st.participants.get? o.randomIndex with
  | none =>
      { state := { st with status := Status.Error }
        saved := [{ st with status := Status.Processing }]
        errorBroadcast := some "Error selecting winner: random index out of range"
        attempts := 0
        selected := none
        resetScheduled := true }
  | some winnerAddress =>
      if o.balance < WINNING_PAYOUT + jsOrNat o.feeValue MINIMUM_FEE_LAMPORTS then
        { state := { st with status := Status.Error }
          saved := [{ st with status := Status.Processing }]
          errorBroadcast := some "Error selecting winner: Insufficient funds for payout"
          attempts := 0
          selected := some winnerAddress
          resetScheduled := true }
      else if o.sendResult = true then
        { state :=
            { st with
              status := Status.Complete
              winner := some winnerAddress
              pastWinners := capFive (winnerAddress :: st.pastWinners) }
          saved :=
            [{ st with status := Status.Processing },
             { st with
               status := Status.Complete
               winner := some winnerAddress
               pastWinners := capFive (winnerAddress :: st.pastWinners) }]
          errorBroadcast := none
          attempts := 1
          selected := some winnerAddress
          resetScheduled := true }
      else
        { state := { st with status := Status.Error }
          saved := [{ st with status := Status.Processing }]
          errorBroadcast := some "Error selecting winner: send failed"
          attempts := 1
          selected := some winnerAddress
          resetScheduled := true }

/-- Ledger responses for the part_002 pickWinner variant: per-attempt
submission outcomes for the retry loop. -/
structure DrawOracleV2 where
  balance : ℕ
  feeValue : Option ℕ
  randomIndex : ℕ
  sendResult : ℕ → Bool

/-- The  while (attempts < maxAttempts)  submission loop of
src/unnamed/part_002 (lines 320-336) unrolled for maxAttempts = 3, each
iteration fetching a fresh blockhash before sending.  Returns how many
sendAndConfirmTransaction calls were made and whether one succeeded. -/
def retrySend3 (send : ℕ → Bool) : ℕ × Bool :=
  if send 0 = true then (1, true)
  else if send 1 = true then (2, true)
  else if send 2 = true then (3, true)
  else (3, false)

/-- pickWinner of src/unnamed/part_002 (lines 284-348): Processing, save;
feasibility check first; then winnerIndex = crypto.randomInt(0,
MAX_PARTICIPANTS); then the 3-attempt retry loop with a fresh blockhash per
attempt; on exhaustion the last error is rethrown.  Both the success path
and the catch block call saveState, so the terminal state is persisted. -/
def pickWinnerV2 (st : LState) (o : DrawOracleV2) : DrawOut :=
  if o.balance < WINNING_PAYOUT + jsOrNat o.feeValue MINIMUM_FEE_LAMPORTS then
    { state := { st with status := Status.Error }
      saved := [{ st with status := Status.Processing }, { st with status := Status.Error }]
      errorBroadcast := some "Payout failed: Insufficient funds for payout"
      attempts := 0
      selected := none
      resetScheduled := true }
  else
    match st.participants.get? o.randomIndex with
    | none =>
        { state := { st with status := Status.Error }
          saved := [{ st with status := Status.Processing }, { st with status := Status.Error }]
          errorBroadcast := some "Payout failed: random index out of range"
          attempts := 0
          selected := none
          resetScheduled := true }
    | some winnerAddress =>
        if (retrySend3 o.sendResult).2 = true then
          { state :=
              { st with
                status := Status.Complete
                winner := some winnerAddress }
            saved :=
              [{ st with status := Status.Processing },
               { st with
                 status := Status.Complete
                 winner := some winnerAddress }]
            errorBroadcast := none
            attempts := (retrySend3 o.sendResult).1
            selected := some winnerAddress
            resetScheduled := true }
        else
          { state := { st with status := Status.Error }
            saved := [{ st with status := Status.Processing }, { st with status := Status.Error }]
            errorBroadcast := some "Payout failed: send failed"
            attempts := (retrySend3 o.sendResult).1
            selected := some winnerAddress
            resetScheduled := true }

/-- pickWinner of src/unnamed/part_001 (lines 381-447): after the Processing
transition is broadcast and saved, the fee-estimate message construction
(lines 390 and 394) references winnerAddress before its const declaration on
line 406, so every invocation throws a ReferenceError in the temporal dead
zone, before the feasibility check, before the winner is drawn and before
any submission; the catch block (lines 440-446) sets status Error,
broadcasts the failure reason, saves, and schedules a reset.  The 3-attempt
retry loop at lines 417-435 is unreachable dead code in this variant, so no
oracle input can influence the outcome. -/
def pickWinnerV1 (st : LState) : DrawOut :=
  { state := { st with status := Status.Error }
    saved := [{ st with status := Status.Processing }, { st with status := Status.Error }]
    errorBroadcast := some "Payout failed: winnerAddress referenced before declaration"
    attempts := 0
    selected := none
    resetScheduled := true }

/-- Ledger responses consumed while handling one onLogs notification:
the getTransaction result for the signature, the getBalance result used by
updateBalance after a credit, and the draw oracle used if the round fills. -/
structure EntryOracle where
  fetchTx : Option TxRecord
  balanceAfter : ℕ
  draw : DrawOracle
deriving DecidableEq, Repr

/-- Observable outcome of handling one notification: resulting state,
whether getTransaction was invoked, and whether an entry was credited. -/
structure MonitorOut where
  state : LState
  fetched : Bool
  credited : Bool
deriving DecidableEq, Repr

/-- amount = preBalances[1] - postBalances[1] === LOTTERY_ENTRY_AMOUNT
(index.js lines 188-192).  A missing index makes the JS comparison against
NaN false. -/
def qualifiesAmount (m : TxMeta) : Bool :=
  match m.preBalances.get? 1, m.postBalances.get? 1 with
  | some pre, some post => pre - post == (LOTTERY_ENTRY_AMOUNT : ℤ)
  | _, _ => false

/-- Validation of a fetched transaction (index.js lines 183-192): reject if
the record, its meta, or a clean execution is missing; extract sender
(accountKeys[0]) and recipient (accountKeys[1]); qualify iff the recipient
is the lottery address and the balance delta equals the entry amount.
A missing account key throws in JS (undefined.toBase58) and is caught by the
handler, which has the same observable effect as rejection.  Returns the
sender of a qualifying entry. -/
def validateTx (laddr : String) (o : Option TxRecord) : Option String :=
  match o with
  | none => none
  | some tx =>
    match tx.meta with
    | none => none
    | some m =>
      if m.err = true then none
      else
        match tx.accountKeys.get? 0, tx.accountKeys.get? 1 with
        | some sender, some recipient =>
            if recipient = laddr ∧ qualifiesAmount m = true then some sender else none
        | _, _ => none

/-- The credit block (index.js lines 195-199): append the sender, add 0.01
SOL to the pool, unshift the sender onto recentDepositors (cap 5), and let
updateBalance refresh the balance snapshot from the ledger. -/
def creditEntry (st : LState) (sender : String) (bal : ℕ) : LState :=
  { st with
    participants := st.participants ++ [sender]
    pool := st.pool + 1/100
    recentDepositors := capFive (sender :: st.recentDepositors)
    balance := (bal : ℚ) / (LAMPORTS_PER_SOL : ℚ) }

/-- After a credit (index.js lines 203-205): when the participant count hits
MAX_PARTICIPANTS, pickWinner runs synchronously. -/
def monitorCredit (st2 : LState) (o : EntryOracle) : MonitorOut :=
  if st2.participants.length = MAX_PARTICIPANTS then
    { state := (pickWinner st2 o.draw).state, fetched := true, credited := true }
  else
    { state := st2, fetched := true, credited := true }

/-- Fetch-and-validate stage of the handler, entered after the signature has
been recorded in the dedup window: fetch the transaction, validate it, drop
duplicate senders, otherwise credit the entry. -/
def monitorValidate (laddr : String) (st1 : LState) (o : EntryOracle) : MonitorOut :=
  match validateTx laddr o.fetchTx with
  | none => { state := st1, fetched := true, credited := false }
  | some sender =>
    if sender ∈ st1.participants then { state := st1, fetched := true, credited := false }
    else monitorCredit (creditEntry st1 sender o.balanceAfter) o

/-- The onLogs notification handler registered by monitorTransactions
(index.js lines 169-212).  Order as in the source: first the quota and
status guard (line 172), then the dedup-window check (line 175), then the
signature is recorded with eviction (lines 177-181), then the transaction
is fetched and validated, then the entry is credited and a full round draws
a winner. -/
def monitorTransactions (laddr : String) (st : LState) (sig : String) (o : EntryOracle) :
    MonitorOut :=
  if st.participants.length ≥ MAX_PARTICIPANTS ∨ st.status ≠ Status.Active then
    { state := st, fetched := false, credited := false }
  else if sig ∈ st.transactionsSeen then
    { state := st, fetched := false, credited := false }
  else
    monitorValidate laddr
      { st with transactionsSeen := dedupInsert st.transactionsSeen sig } o

/-- resetLottery (index.js lines 153-167): fresh empty round, Active status,
empty dedup window and empty recentDepositors; pastWinners and balance are
carried over. -/
def resetLottery (st : LState) : LState :=
  { participants := []
    pool := 0
    status := Status.Active
    winner := none
    transactionsSeen := []
    recentDepositors := []
    pastWinners := st.pastWinners
    balance := st.balance }

/-- The initial lotteryState literal (index.js lines 40-49). -/
def initialState : LState :=
  { participants := []
    pool := 0
    status := Status.Active
    winner := none
    transactionsSeen := []
    recentDepositors := []
    pastWinners := []
    balance := 0 }

/-- The persisted JSON snapshot shape: saveState writes the state with
transactionsSeen as an array; older snapshots may lack the three optional
fields, which loadState defaults. -/
structure Snapshot where
  participants : List String
  pool : ℚ
  status : Status
  winner : Option String
  transactionsSeen : Option (List String)
  recentDepositors : Option (List String)
  pastWinners : Option (List String)
  balance : ℚ
deriving DecidableEq, Repr

/-- new Set(array): duplicates removed, first occurrence order kept. -/
def setFromList : List String → List String
  | [] => []
  | x :: xs => x :: (setFromList xs).filter (fun y => y != x)

/-- loadState (index.js lines 51-62): the parsed snapshot replaces the state
verbatim; transactionsSeen is rebuilt as a Set from the stored array and the
two trailing lists are defaulted when absent. -/
def loadState (snap : Snapshot) : LState :=
  { participants := snap.participants
    pool := snap.pool
    status := snap.status
    winner := snap.winner
    transactionsSeen := setFromList (snap.transactionsSeen.getD [])
    recentDepositors := snap.recentDepositors.getD []
    pastWinners := snap.pastWinners.getD []
    balance := snap.balance }

/-- start (index.js lines 591-599): loadState, then updateBalance (which
only refreshes the balance field from the ledger), then the notification
subscription is registered.  No draw and no reset is scheduled here; the
only setTimeout(resetLottery, ...) calls in the program are inside
pickWinner. -/
def start (snap : Snapshot) (bal : ℕ) : LState :=
  { loadState snap with balance := (bal : ℚ) / (LAMPORTS_PER_SOL : ℚ) }

/-- Externally triggered state transitions: a ledger notification handled by
the onLogs callback, or the delayed resetLottery scheduled by a finished
draw. -/
inductive Event where
  | notif (sig : String) (o : EntryOracle)
  | reset
deriving DecidableEq, Repr

/-- One serialized state transition. -/
def applyEvent (laddr : String) (st : LState) (e : Event) : LState :=
  match e with
  | Event.notif sig o => (monitorTransactions laddr st sig o).state
  | Event.reset => resetLottery st

/-- A serialized execution of the server from a given state. -/
def run (laddr : String) (st : LState) (es : List Event) : LState :=
  es.foldl (applyEvent laddr) st

/-- A serialized execution consisting of ledger notifications only, as after
a restart in which no draw ever starts. -/
def runNotifs (laddr : String) (st : LState) (ns : List (String × EntryOracle)) : LState :=
  ns.foldl (fun s p => (monitorTransactions laddr s p.1 p.2).state) st

/-- The pool bookkeeping relation the spec intends, in the units the code
actually uses: the pool field counts SOL, one hundredth per participant, so
scaled by LAMPORTS_PER_SOL it equals the configured lamport entry amount
times the participant count. -/
def poolInv (st : LState) : Prop :=
  st.pool * (LAMPORTS_PER_SOL : ℚ) = (LOTTERY_ENTRY_AMOUNT : ℚ) * st.participants.length

/-- A transaction record for a qualifying 0.01 SOL deposit from the given
sender to the lottery address "L". -/
def okTx (sender : String) : TxRecord :=
  { accountKeys := [sender, "L"]
    meta := some { err := false, preBalances := [0, 10000000], postBalances := [0, 0] } }

/-- A draw oracle with an empty custodial wallet: the feasibility check
fails. -/
def failDraw : DrawOracle :=
  { randomIndex := 0, feeValue := some 5000, balance := 0, sendResult := false }

/-- A draw oracle with ample balance whose single submission fails. -/
def sendFailDraw : DrawOracle :=
  { randomIndex := 0, feeValue := some 5000, balance := 1000000000, sendResult := false }

/-- A draw oracle with ample balance whose submission succeeds. -/
def okDraw : DrawOracle :=
  { randomIndex := 2, feeValue := some 5000, balance := 1000000000, sendResult := true }

/-- A part_002 draw oracle with ample balance whose submissions all fail. -/
def sendFailDrawV2 : DrawOracleV2 :=
  { balance := 1000000000
    feeValue := some 5000
    randomIndex := 0
    sendResult := fun _ => false }

/-- An entry oracle delivering a qualifying deposit from the given sender,
with a zero ledger balance afterwards and an infeasible draw oracle. -/
def okOracle (sender : String) : EntryOracle :=
  { fetchTx := some (okTx sender), balanceAfter := 0, draw := failDraw }

/-- A full Active round with five distinct participants. -/
def fullState : LState :=
  { participants := ["pa", "pb", "pc", "pd", "pe"]
    pool := 5/100
    status := Status.Active
    winner := none
    transactionsSeen := ["s1", "s2", "s3", "s4", "s5"]
    recentDepositors := ["pe", "pd", "pc", "pb", "pa"]
    pastWinners := []
    balance := 0 }

/-- The state of a round caught mid-draw. -/
def procState : LState :=
  { initialState with status := Status.Processing }

/-- A completed round awaiting its reset. -/
def c1State : LState :=
  { participants := ["pa", "pb", "pc", "pd", "pe"]
    pool := 5/100
    status := Status.Complete
    winner := some "pc"
    transactionsSeen := ["s1", "s2", "s3", "s4", "s5"]
    recentDepositors := ["pe", "pd", "pc", "pb", "pa"]
    pastWinners := ["pc"]
    balance := 0 }

/-- Five qualifying deposits that fill a round (the fifth triggers a draw
that aborts on the feasibility check), followed by the scheduled reset. -/
def c6Events : List Event :=
  [Event.notif "s1" (okOracle "pa"),
   Event.notif "s2" (okOracle "pb"),
   Event.notif "s3" (okOracle "pc"),
   Event.notif "s4" (okOracle "pd"),
   Event.notif "s5" (okOracle "pe"),
   Event.reset]

/-- A persisted snapshot whose round was interrupted mid-draw. -/
def procSnapshot : Snapshot :=
  { participants := ["pa", "pb", "pc", "pd", "pe"]
    pool := 5/100
    status := Status.Processing
    winner := none
    transactionsSeen := some ["s1", "s2", "s3", "s4", "s5"]
    recentDepositors := some ["pe", "pd", "pc", "pb", "pa"]
    pastWinners := some []
    balance := 0 }

/-- A draw leaves the participant list, the pool, the dedup window and the
recentDepositors list untouched: pickWinner only writes status, winner and
pastWinners. -/
theorem pickWinner_frame (st : LState) (o : DrawOracle) :
    (pickWinner st o).state.participants = st.participants ∧
    (pickWinner st o).state.pool = st.pool ∧
    (pickWinner st o).state.transactionsSeen = st.transactionsSeen := by
  unfold pickWinner
  split
  · exact ⟨rfl, rfl, rfl⟩
  · split
    · exact ⟨rfl, rfl, rfl⟩
    · split
      · exact ⟨rfl, rfl, rfl⟩
      · exact ⟨rfl, rfl, rfl⟩

/-- The fetch-and-validate stage never changes the dedup window. -/
theorem monitorValidate_seen (laddr : String) (st1 : LState) (o : EntryOracle) :
    (monitorValidate laddr st1 o).state.transactionsSeen = st1.transactionsSeen := by
  unfold monitorValidate
  split
  · rfl
  · split
    · rfl
    · unfold monitorCredit
      split
      · exact (pickWinner_frame _ _).2.2
      · rfl

/-- The fetch-and-validate stage either leaves participants and pool alone or
credits exactly one entry: one appended participant and one entry amount
added to the pool. -/
theorem monitorValidate_cases (laddr : String) (st1 : LState) (o : EntryOracle) :
    ((monitorValidate laddr st1 o).state.participants = st1.participants ∧
     (monitorValidate laddr st1 o).state.pool = st1.pool) ∨
    (∃ s, (monitorValidate laddr st1 o).state.participants = st1.participants ++ [s] ∧
          (monitorValidate laddr st1 o).state.pool = st1.pool + 1/100) := by
  unfold monitorValidate
  split
  · exact Or.inl ⟨rfl, rfl⟩
  · next sender heq =>
    split
    · exact Or.inl ⟨rfl, rfl⟩
    · unfold monitorCredit
      split
      · exact Or.inr ⟨sender, (pickWinner_frame _ _).1, (pickWinner_frame _ _).2.1⟩
      · exact Or.inr ⟨sender, rfl, rfl⟩

/-- When the quota or status guard fires, the handler is a no-op. -/
theorem monitor_guard (laddr : String) (st : LState) (sig : String) (o : EntryOracle)
    (h : st.participants.length ≥ MAX_PARTICIPANTS ∨ st.status ≠ Status.Active) :
    monitorTransactions laddr st sig o =
      { state := st, fetched := false, credited := false } := by
  unfold monitorTransactions
  rw [if_pos h]

/-- A signature already in the dedup window makes the handler a no-op:
nothing is fetched and nothing changes. -/
theorem monitor_seen (laddr : String) (st : LState) (sig : String) (o : EntryOracle)
    (h : sig ∈ st.transactionsSeen) :
    monitorTransactions laddr st sig o =
      { state := st, fetched := false, credited := false } := by
  unfold monitorTransactions
  by_cases hg : st.participants.length ≥ MAX_PARTICIPANTS ∨ st.status ≠ Status.Active
  · rw [if_pos hg]
  · rw [if_neg hg, if_pos h]

/-- When both guards pass, the handler records the signature and proceeds to
fetch and validate. -/
theorem monitor_pass (laddr : String) (st : LState) (sig : String) (o : EntryOracle)
    (hA : st.status = Status.Active) (hq : st.participants.length < MAX_PARTICIPANTS)
    (hs : sig ∉ st.transactionsSeen) :
    monitorTransactions laddr st sig o =
      monitorValidate laddr
        { st with transactionsSeen := dedupInsert st.transactionsSeen sig } o := by
  have hg : ¬(st.participants.length ≥ MAX_PARTICIPANTS ∨ st.status ≠ Status.Active) := by
    push_neg
    exact ⟨hq, hA⟩
  unfold monitorTransactions
  rw [if_neg hg, if_neg hs]

/-- An unseen signature that passes the guards ends up recorded in the dedup
window, whatever the fetched transaction turns out to be. -/
theorem monitor_record (laddr : String) (st : LState) (sig : String) (o : EntryOracle)
    (hA : st.status = Status.Active) (hq : st.participants.length < MAX_PARTICIPANTS)
    (hs : sig ∉ st.transactionsSeen) :
    (monitorTransactions laddr st sig o).state.transactionsSeen =
      dedupInsert st.transactionsSeen sig := by
  rw [monitor_pass laddr st sig o hA hq hs]
  exact monitorValidate_seen laddr _ o

/-- Master case split for one notification: either the state is completely
unchanged, or both guards passed, the signature was recorded, and at most
one entry was credited. -/
theorem monitor_cases (laddr : String) (st : LState) (sig : String) (o : EntryOracle) :
    (monitorTransactions laddr st sig o).state = st ∨
    (st.participants.length < MAX_PARTICIPANTS ∧ st.status = Status.Active ∧
     (monitorTransactions laddr st sig o).state.transactionsSeen =
       dedupInsert st.transactionsSeen sig ∧
     (((monitorTransactions laddr st sig o).state.participants = st.participants ∧
       (monitorTransactions laddr st sig o).state.pool = st.pool) ∨
      (∃ s, (monitorTransactions laddr st sig o).state.participants = st.participants ++ [s] ∧
            (monitorTransactions laddr st sig o).state.pool = st.pool + 1/100))) := by
  by_cases hg : st.participants.length ≥ MAX_PARTICIPANTS ∨ st.status ≠ Status.Active
  · left
    rw [monitor_guard laddr st sig o hg]
  · push_neg at hg
    by_cases hs : sig ∈ st.transactionsSeen
    · left
      rw [monitor_seen laddr st sig o hs]
    · right
      refine ⟨hg.1, hg.2, monitor_record laddr st sig o hg.2 hg.1 hs, ?_⟩
      rw [monitor_pass laddr st sig o hg.2 hg.1 hs]
      exact monitorValidate_cases laddr _ o

/-- The inserted signature is always present after dedupInsert: eviction only
ever removes the oldest entry, never the newcomer. -/
theorem mem_dedupInsert (seen : List String) (sig : String) :
    sig ∈ dedupInsert seen sig := by
  unfold dedupInsert
  by_cases h : (seen ++ [sig]).length > MAX_TRANSACTIONS_SEEN
  · rw [if_pos h]
    cases seen with
    | nil =>
      exfalso
      simp [MAX_TRANSACTIONS_SEEN] at h
    | cons a l =>
      simp
  · rw [if_neg h]
    simp

/-- dedupInsert removes an existing element only when the window is at
capacity, and then only the oldest entry. -/
theorem dedupInsert_removal (seen : List String) (sig x : String)
    (hx : x ∈ seen) (hout : x ∉ dedupInsert seen sig) :
    seen.length ≥ MAX_TRANSACTIONS_SEEN ∧ seen.head? = some x := by
  unfold dedupInsert at hout
  by_cases h : (seen ++ [sig]).length > MAX_TRANSACTIONS_SEEN
  · rw [if_pos h] at hout
    cases seen with
    | nil => cases hx
    | cons a l =>
      constructor
      · simp [MAX_TRANSACTIONS_SEEN] at h ⊢
        omega
      · have hnl : x ∉ l := by
          intro hl
          exact hout (by simp [hl])
        rcases List.mem_cons.mp hx with hxa | hxl
        · simp [hxa]
        · exact absurd hxl hnl
  · rw [if_neg h] at hout
    exact absurd (List.mem_append_left _ hx) hout

/-- Preservation lemma for serialized executions. -/
theorem run_preserve (laddr : String) (P : LState → Prop)
    (h : ∀ st e, P st → P (applyEvent laddr st e)) :
    ∀ es st, P st → P (run laddr st es) := by
  intro es
  induction es with
  | nil =>
    intro st hst
    exact hst
  | cons e es ih =>
    intro st hst
    exact ih (applyEvent laddr st e) (h st e hst)

/-- With a non-Active status, the handler is a no-op on the state. -/
theorem monitor_stuck (laddr : String) (st : LState) (sig : String) (o : EntryOracle)
    (h : st.status ≠ Status.Active) :
    monitorTransactions laddr st sig o =
      { state := st, fetched := false, credited := false } :=
  monitor_guard laddr st sig o (Or.inr h)

/-- A non-Active state is a fixed point of any sequence of notifications. -/
theorem runNotifs_stuck (laddr : String) :
    ∀ ns : List (String × EntryOracle), ∀ st : LState, st.status ≠ Status.Active →
      runNotifs laddr st ns = st := by
  intro ns
  induction ns with
  | nil =>
    intro st _
    rfl
  | cons p ns ih =>
    intro st h
    have hstep : (monitorTransactions laddr st p.1 p.2).state = st := by
      rw [monitor_stuck laddr st p.1 p.2 h]
    calc runNotifs laddr st (p :: ns)
        = runNotifs laddr (monitorTransactions laddr st p.1 p.2).state ns := rfl
      _ = runNotifs laddr st ns := by rw [hstep]
      _ = st := ih st h

/-- getD is dominated by the JS falsy-or, which also replaces a zero fee. -/
theorem getD_le_jsOrNat (v : Option ℕ) (d : ℕ) : v.getD d ≤ jsOrNat v d := by
  cases v with
  | none => exact le_refl d
  | some k =>
    cases k with
    | zero => exact Nat.zero_le d
    | succ n => exact le_refl _

/-- When every submission attempt fails, the retry loop makes exactly three
sendAndConfirmTransaction calls and reports failure. -/
theorem retrySend3_allFail (send : ℕ → Bool) (h : ∀ i, send i = false) :
    retrySend3 send = (3, false) := by
  simp [retrySend3, h]

/-- An in-range index selects an element of the list. -/
theorem get?_lt_some {l : List String} {n : ℕ} (h : n < l.length) :
    ∃ w, l.get? n = some w := by
  cases hg : l.get? n with
  | none =>
    rw [List.get?_eq_none] at hg
    omega
  | some w => exact ⟨w, rfl⟩

/-- C1, counterexample: the claim says a Reset leaves recentDepositors
unchanged, but resetLottery in src/index.js (lines 153-167) assigns it the
empty list; on a completed round with five recent depositors the list does
change. -/
theorem C1_counterexample :
    c1State.status = Status.Complete ∧
    (resetLottery c1State).recentDepositors ≠ c1State.recentDepositors := by
  constructor
  · rfl
  · decide

/-- C1, amended: for every round in a terminal status, resetLottery empties
participants, zeroes the pool, clears the winner, sets status back to
Active, and leaves pastWinners unchanged; recentDepositors, however, is
cleared by the reset rather than preserved. -/
theorem C1_reset_frame (st : LState)
    (_h : st.status = Status.Complete ∨ st.status = Status.Error) :
    (resetLottery st).participants = [] ∧
    (resetLottery st).pool = 0 ∧
    (resetLottery st).winner = none ∧
    (resetLottery st).status = Status.Active ∧
    (resetLottery st).recentDepositors = [] ∧
    (resetLottery st).pastWinners = st.pastWinners :=
  ⟨rfl, rfl, rfl, rfl, rfl, rfl⟩

/-- Witness for C1_reset_frame at a concrete completed round. -/
theorem C1_reset_frame_witness :
    (resetLottery c1State).participants = [] ∧
    (resetLottery c1State).pool = 0 ∧
    (resetLottery c1State).winner = none ∧
    (resetLottery c1State).status = Status.Active ∧
    (resetLottery c1State).recentDepositors = [] ∧
    (resetLottery c1State).pastWinners = c1State.pastWinners :=
  C1_reset_frame c1State (Or.inl rfl)

/-- C5, counterexample: the claim says the dedup window is consulted before
any other processing of every notification and that an unseen signature is
recorded immediately; but the quota and status guard on index.js line 172
runs first, so a notification arriving while the status is Processing is
dropped without the window being consulted and without the unseen signature
being recorded. -/
theorem C5_counterexample :
    procState.status ≠ Status.Active ∧
    (monitorTransactions "L" procState "s1" (okOracle "pa")).state.transactionsSeen = [] ∧
    (monitorTransactions "L" procState "s1" (okOracle "pa")).fetched = false := by
  decide

/-- C5, amended: for notifications that pass the quota and status guard
(which the code checks first), the dedup window is consulted before the
transaction record is fetched, and an unseen signature is recorded into the
window before validation — for every possible fetch result — so a failed
validation cannot cause the signature to be reprocessed; a signature already
in the window short-circuits the handler without fetching anything. -/
theorem C5_dedup_order (laddr : String) (st : LState) (sig : String) (o : EntryOracle)
    (hA : st.status = Status.Active) (hq : st.participants.length < MAX_PARTICIPANTS) :
    (sig ∉ st.transactionsSeen →
       sig ∈ (monitorTransactions laddr st sig o).state.transactionsSeen) ∧
    (sig ∈ st.transactionsSeen →
       (monitorTransactions laddr st sig o).state = st ∧
       (monitorTransactions laddr st sig o).fetched = false) := by
  constructor
  · intro hs
    rw [monitor_record laddr st sig o hA hq hs]
    exact mem_dedupInsert st.transactionsSeen sig
  · intro hs
    rw [monitor_seen laddr st sig o hs]
    exact ⟨rfl, rfl⟩

/-- Witness for C5_dedup_order: a fresh signature on the initial state is
recorded in the window. -/
theorem C5_dedup_order_witness :
    "s1" ∈ (monitorTransactions "L" initialState "s1" (okOracle "pa")).state.transactionsSeen :=
  (C5_dedup_order "L" initialState "s1" (okOracle "pa") rfl (by decide)).1 (by decide)

/-- C6, counterexample: signature s1 is credited in the first round; the
round fills, the draw fails, and the scheduled reset wipes the whole dedup
window (removal not caused by FIFO eviction, the window held only five
entries); replaying s1 afterwards is credited a second time. -/
theorem C6_counterexample :
    (monitorTransactions "L" initialState "s1" (okOracle "pa")).credited = true ∧
    (run "L" initialState (c6Events.take 5)).transactionsSeen =
      ["s1", "s2", "s3", "s4", "s5"] ∧
    (run "L" initialState c6Events).transactionsSeen = [] ∧
    (monitorTransactions "L" (run "L" initialState c6Events) "s1"
      (okOracle "pa")).credited = true := by
  decide

/-- C6, amended: while a signature remains in the dedup window, replaying it
is a no-op and credits nothing, so a transaction identifier is credited at
most once per round; within a round the handler removes an identifier only
by FIFO eviction of the oldest entry when the window is at capacity; but a
Reset clears the whole window, so the same identifier can be credited again
in a later round. -/
theorem C6_dedup_lifecycle (laddr : String) (st : LState) (sig x : String) (o : EntryOracle) :
    (sig ∈ st.transactionsSeen →
       (monitorTransactions laddr st sig o).state = st ∧
       (monitorTransactions laddr st sig o).credited = false) ∧
    (resetLottery st).transactionsSeen = [] ∧
    (x ∈ st.transactionsSeen →
       x ∉ (monitorTransactions laddr st sig o).state.transactionsSeen →
       st.transactionsSeen.length ≥ MAX_TRANSACTIONS_SEEN ∧
       st.transactionsSeen.head? = some x) := by
  refine ⟨?_, rfl, ?_⟩
  · intro hs
    rw [monitor_seen laddr st sig o hs]
    exact ⟨rfl, rfl⟩
  · intro hx hout
    rcases monitor_cases laddr st sig o with hsame | ⟨_, _, hseen, _⟩
    · rw [hsame] at hout
      exact absurd hx hout
    · rw [hseen] at hout
      exact dedupInsert_removal st.transactionsSeen sig x hx hout

/-- Witness for C6_dedup_lifecycle: replaying an already-seen signature on a
full round changes nothing, and resetting clears the window. -/
theorem C6_dedup_lifecycle_witness :
    ((monitorTransactions "L" fullState "s1" (okOracle "pa")).state = fullState ∧
     (monitorTransactions "L" fullState "s1" (okOracle "pa")).credited = false) ∧
    (resetLottery fullState).transactionsSeen = [] :=
  ⟨(C6_dedup_lifecycle "L" fullState "s1" "s1" (okOracle "pa")).1 (by decide),
   (C6_dedup_lifecycle "L" fullState "s1" "s1" (okOracle "pa")).2.1⟩

/-- C7: if at draw time the custodial balance is below the payout plus the
estimated fee — with the fixed 5000-lamport minimum substituted when the
ledger returns no fee — the round ends in Error and sendAndConfirmTransaction
is never invoked.  (The code additionally substitutes the minimum for a
zero fee, which only widens the abort condition.) -/
theorem C7_feasibility (st : LState) (o : DrawOracle)
    (h : o.balance < WINNING_PAYOUT + o.feeValue.getD MINIMUM_FEE_LAMPORTS) :
    (pickWinner st o).state.status = Status.Error ∧ (pickWinner st o).attempts = 0 := by
  have hcode : o.balance < WINNING_PAYOUT + jsOrNat o.feeValue MINIMUM_FEE_LAMPORTS := by
    have hle := getD_le_jsOrNat o.feeValue MINIMUM_FEE_LAMPORTS
    omega
  unfold pickWinner
  split
  · exact ⟨rfl, rfl⟩
  · rw [if_pos hcode]
    exact ⟨rfl, rfl⟩

/-- Witness for C7_feasibility: an empty wallet aborts the draw with no
submission. -/
theorem C7_feasibility_witness :
    (pickWinner fullState failDraw).state.status = Status.Error ∧
    (pickWinner fullState failDraw).attempts = 0 :=
  C7_feasibility fullState failDraw (by decide)

/-- C9: every state reachable from the initial state through notifications,
draws and resets has at most MAX_PARTICIPANTS participants, and once the
quota is reached or the status leaves Active, the handler is a complete
no-op — no deposit is credited until a Reset produces a fresh round. -/
theorem C9_quota (laddr : String) (es : List Event) (st : LState) (sig : String)
    (o : EntryOracle) :
    (run laddr initialState es).participants.length ≤ MAX_PARTICIPANTS ∧
    (st.participants.length ≥ MAX_PARTICIPANTS ∨ st.status ≠ Status.Active →
      (monitorTransactions laddr st sig o).state = st ∧
      (monitorTransactions laddr st sig o).credited = false) := by
  constructor
  · have hstep : ∀ s e, s.participants.length ≤ MAX_PARTICIPANTS →
        (applyEvent laddr s e).participants.length ≤ MAX_PARTICIPANTS := by
      intro s e hs
      cases e with
      | reset => exact Nat.zero_le MAX_PARTICIPANTS
      | notif sig2 o2 =>
        show (monitorTransactions laddr s sig2 o2).state.participants.length ≤ MAX_PARTICIPANTS
        rcases monitor_cases laddr s sig2 o2 with hsame | ⟨hlt, _, _, hcase⟩
        · rw [hsame]
          exact hs
        · rcases hcase with ⟨hp, _⟩ | ⟨x, hp, _⟩
          · rw [hp]
            exact hs
          · rw [hp, List.length_append, List.length_singleton]
            omega
    exact run_preserve laddr (fun s => s.participants.length ≤ MAX_PARTICIPANTS) hstep es
      initialState (Nat.zero_le MAX_PARTICIPANTS)
  · intro hg
    rw [monitor_guard laddr st sig o hg]
    exact ⟨rfl, rfl⟩

/-- Witness for C9_quota: a five-deposit run stays within quota, and a sixth
deposit against the full round is rejected without any state change. -/
theorem C9_quota_witness :
    (run "L" initialState (c6Events.take 5)).participants.length ≤ MAX_PARTICIPANTS ∧
    (monitorTransactions "L" fullState "s6" (okOracle "pf")).state = fullState ∧
    (monitorTransactions "L" fullState "s6" (okOracle "pf")).credited = false :=
  ⟨(C9_quota "L" (c6Events.take 5) fullState "s6" (okOracle "pf")).1,
   (C9_quota "L" (c6Events.take 5) fullState "s6" (okOracle "pf")).2 (Or.inl (by decide))⟩

/-- C10: start restores the persisted status verbatim and never inspects it;
if the snapshot is in any non-Active status, every subsequent ledger
notification leaves the restarted state completely unchanged.  No draw can
begin (a draw is only entered from a credited fifth entry, and nothing is
credited) and no reset is ever scheduled (the only setTimeout(resetLottery)
calls in the program are inside pickWinner), so the process stays in the
restored non-Active status indefinitely. -/
theorem C10_restart_stuck (laddr : String) (snap : Snapshot) (bal : ℕ)
    (ns : List (String × EntryOracle)) (h : snap.status ≠ Status.Active) :
    (start snap bal).status = snap.status ∧
    runNotifs laddr (start snap bal) ns = start snap bal := by
  constructor
  · rfl
  · exact runNotifs_stuck laddr ns (start snap bal) h

/-- Witness for C10_restart_stuck: a snapshot persisted mid-draw stays stuck
in Processing across a balance refresh and a fresh notification. -/
theorem C10_restart_stuck_witness :
    (start procSnapshot 77).status = procSnapshot.status ∧
    runNotifs "L" (start procSnapshot 77) [("s6", okOracle "pf")] = start procSnapshot 77 :=
  C10_restart_stuck "L" procSnapshot 77 [("s6", okOracle "pf")] (by decide)

/-- C2, counterexample: the claim says payout submission is retried up to 3
attempts and the round reaches Error only after all 3 are exhausted; in
src/index.js pickWinner makes a single sendAndConfirmTransaction call, and a
full round with ample balance whose one submission fails is in Error after
exactly 1 attempt. -/
theorem C2_counterexample :
    (pickWinner fullState sendFailDraw).state.status = Status.Error ∧
    (pickWinner fullState sendFailDraw).attempts = 1 := by
  decide

/-- C2, amended: in src/index.js payout submission is attempted exactly
once, with a single fetched blockhash, and any submission or confirmation
failure transitions the round to Error immediately; the 3-attempt retry loop
with a fixed inter-attempt delay and a freshly fetched blockhash per attempt
is implemented only in the part_002 variant, where the round transitions to
Error only after all 3 attempts fail; in the part_001 variant the same loop
is unreachable dead code — winnerAddress is referenced before its
declaration, so every draw throws before any submission and reaches Error
with 0 attempts. -/
theorem C2_retry_variants (st : LState) (o : DrawOracle) (o2 : DrawOracleV2)
    (h1 : o.randomIndex < st.participants.length)
    (h2 : ¬ o.balance < WINNING_PAYOUT + jsOrNat o.feeValue MINIMUM_FEE_LAMPORTS)
    (h3 : o.sendResult = false)
    (h4 : ¬ o2.balance < WINNING_PAYOUT + jsOrNat o2.feeValue MINIMUM_FEE_LAMPORTS)
    (h5 : o2.randomIndex < st.participants.length)
    (h6 : ∀ i, o2.sendResult i = false) :
    ((pickWinner st o).state.status = Status.Error ∧ (pickWinner st o).attempts = 1) ∧
    ((pickWinnerV2 st o2).state.status = Status.Error ∧
     (pickWinnerV2 st o2).attempts = 3) ∧
    ((pickWinnerV1 st).state.status = Status.Error ∧ (pickWinnerV1 st).attempts = 0) := by
  refine ⟨?_, ?_, rfl, rfl⟩
  · unfold pickWinner
    split
    · next heq =>
      rw [List.get?_eq_none] at heq
      omega
    · rw [if_neg h2, if_neg (by rw [h3]; exact Bool.false_ne_true)]
      exact ⟨rfl, rfl⟩
  · unfold pickWinnerV2
    rw [if_neg h4]
    split
    · next heq =>
      rw [List.get?_eq_none] at heq
      omega
    · rw [retrySend3_allFail o2.sendResult h6]
      rw [if_neg Bool.false_ne_true]
      exact ⟨rfl, rfl⟩

/-- Witness for C2_retry_variants at a full round with ample balance and
failing submissions: one attempt then Error in index.js, three attempts then
Error in part_002, zero attempts then Error in part_001. -/
theorem C2_retry_variants_witness :
    ((pickWinner fullState sendFailDraw).state.status = Status.Error ∧
     (pickWinner fullState sendFailDraw).attempts = 1) ∧
    ((pickWinnerV2 fullState sendFailDrawV2).state.status = Status.Error ∧
     (pickWinnerV2 fullState sendFailDrawV2).attempts = 3) ∧
    ((pickWinnerV1 fullState).state.status = Status.Error ∧
     (pickWinnerV1 fullState).attempts = 0) :=
  C2_retry_variants fullState sendFailDraw sendFailDrawV2 (by decide) (by decide) rfl
    (by decide) (by decide) (fun i => rfl)

/-- C3, counterexample: the claim says every failure path persists the
resulting state before the draw returns; in src/index.js the catch block of
pickWinner sets status Error and broadcasts, but the only snapshot handed to
saveState during the failed draw is the Processing one — the Error state is
never persisted before the draw returns. -/
theorem C3_counterexample :
    (pickWinner fullState sendFailDraw).state.status = Status.Error ∧
    (pickWinner fullState sendFailDraw).errorBroadcast.isSome = true ∧
    ∀ s ∈ (pickWinner fullState sendFailDraw).saved, s.status = Status.Processing := by
  decide

/-- C3, amended: on every failure path of the draw the round status is set
to Error and observers are notified with a failure reason, but in
src/index.js the Error state is not persisted before the draw returns — the
last saved snapshot still shows Processing; the part_001/part_002 variants
do persist the Error state from their catch block. -/
theorem C3_failure_paths (st : LState) (o : DrawOracle) (o2 : DrawOracleV2)
    (h : (pickWinner st o).state.status = Status.Error)
    (h2 : (pickWinnerV2 st o2).state.status = Status.Error) :
    ((pickWinner st o).errorBroadcast.isSome = true ∧
     ∀ s ∈ (pickWinner st o).saved, s.status = Status.Processing) ∧
    ((pickWinnerV2 st o2).errorBroadcast.isSome = true ∧
     (pickWinnerV2 st o2).saved.getLast? = some (pickWinnerV2 st o2).state) := by
  constructor
  · unfold pickWinner at h ⊢
    revert h
    split
    · intro _
      refine ⟨rfl, ?_⟩
      intro s hs
      rw [List.mem_singleton] at hs
      subst hs
      rfl
    · split
      · intro _
        refine ⟨rfl, ?_⟩
        intro s hs
        rw [List.mem_singleton] at hs
        subst hs
        rfl
      · split
        · intro hcontra
          exact Status.noConfusion hcontra
        · intro _
          refine ⟨rfl, ?_⟩
          intro s hs
          rw [List.mem_singleton] at hs
          subst hs
          rfl
  · unfold pickWinnerV2 at h2 ⊢
    revert h2
    split
    · intro _
      exact ⟨rfl, rfl⟩
    · split
      · intro _
        exact ⟨rfl, rfl⟩
      · split
        · intro hcontra
          exact Status.noConfusion hcontra
        · intro _
          exact ⟨rfl, rfl⟩

/-- Witness for C3_failure_paths: an infeasible index.js draw and an
exhausted part_002 draw. -/
theorem C3_failure_paths_witness :
    ((pickWinner fullState failDraw).errorBroadcast.isSome = true ∧
     ∀ s ∈ (pickWinner fullState failDraw).saved, s.status = Status.Processing) ∧
    ((pickWinnerV2 fullState sendFailDrawV2).errorBroadcast.isSome = true ∧
     (pickWinnerV2 fullState sendFailDrawV2).saved.getLast? =
       some (pickWinnerV2 fullState sendFailDrawV2).state) :=
  C3_failure_paths fullState failDraw sendFailDrawV2 (by decide) (by decide)

/-- C4, counterexample: the claim says poolTotal equals the configured entry
amount (LOTTERY_ENTRY_AMOUNT = 10^7 lamports, index.js line 13) times the
participant count; after one credited entry the pool field holds 0.01 (it is
kept in SOL, incremented by 0.01 on line 196), not 10^7. -/
theorem C4_counterexample :
    (monitorTransactions "L" initialState "s1" (okOracle "pa")).state.pool ≠
      (LOTTERY_ENTRY_AMOUNT : ℚ) *
        ((monitorTransactions "L" initialState "s1"
          (okOracle "pa")).state.participants.length : ℚ) := by
  have h1 : (monitorTransactions "L" initialState "s1" (okOracle "pa")).state.pool
      = 1/100 := by
    norm_num [monitorTransactions, monitorValidate, monitorCredit, creditEntry, validateTx,
      initialState, okOracle, okTx, dedupInsert, qualifiesAmount, MAX_PARTICIPANTS,
      MAX_TRANSACTIONS_SEEN, LOTTERY_ENTRY_AMOUNT]
  have h2 : (monitorTransactions "L" initialState "s1"
      (okOracle "pa")).state.participants.length = 1 := by decide
  rw [h1, h2]
  norm_num [LOTTERY_ENTRY_AMOUNT]

/-- C4, amended: the pool field is kept in SOL while the entry amount is
configured in lamports; idealizing JS number arithmetic as exact rationals,
after every operation (entry credit, draw, reset) the pool scaled by
LAMPORTS_PER_SOL equals the configured entry amount times the participant
count. -/
theorem C4_pool_invariant (laddr : String) (es : List Event) :
    poolInv (run laddr initialState es) := by
  have hL : (1 / 100 : ℚ) * (LAMPORTS_PER_SOL : ℚ) = (LOTTERY_ENTRY_AMOUNT : ℚ) := by
    norm_num [LAMPORTS_PER_SOL, LOTTERY_ENTRY_AMOUNT]
  have hstep : ∀ st e, poolInv st → poolInv (applyEvent laddr st e) := by
    intro st e hst
    cases e with
    | reset =>
      show poolInv (resetLottery st)
      unfold poolInv resetLottery
      simp
    | notif sig o =>
      show poolInv (monitorTransactions laddr st sig o).state
      rcases monitor_cases laddr st sig o with hsame | ⟨_, _, _, hcase⟩
      · rw [hsame]
        exact hst
      · unfold poolInv at hst ⊢
        rcases hcase with ⟨hp, hq⟩ | ⟨s, hp, hq⟩
        · rw [hp, hq]
          exact hst
        · rw [hp, hq, List.length_append, List.length_singleton]
          push_cast
          nlinarith [hst, hL]
  exact run_preserve laddr poolInv hstep es initialState (by unfold poolInv initialState; simp)

/-- C8: whenever a draw runs on a full round, the random index drawn from
[0, participants.length) selects exactly one participant; that address is a
member of the round participant list, and if the draw completes it is the
recorded winner. -/
theorem C8_winner_selection (st : LState) (o : DrawOracle)
    (hfull : st.participants.length = MAX_PARTICIPANTS)
    (hidx : o.randomIndex < st.participants.length) :
    ∃ w, (pickWinner st o).selected = some w ∧ w ∈ st.participants ∧
      ((pickWinner st o).state.status = Status.Complete →
        (pickWinner st o).state.winner = some w) := by
  unfold pickWinner
  split
  · next heq =>
    rw [List.get?_eq_none] at heq
    omega
  · next w heq =>
    have hmem : w ∈ st.participants := List.get?_mem heq
    refine ⟨w, ?_⟩
    split
    · exact ⟨rfl, hmem, fun hc => Status.noConfusion hc⟩
    · split
      · exact ⟨rfl, hmem, fun _ => rfl⟩
      · exact ⟨rfl, hmem, fun hc => Status.noConfusion hc⟩

/-- Witness for C8_winner_selection: a successful draw on a full round. -/
theorem C8_winner_selection_witness :
    ∃ w, (pickWinner fullState okDraw).selected = some w ∧ w ∈ fullState.participants ∧
      ((pickWinner fullState okDraw).state.status = Status.Complete →
        (pickWinner fullState okDraw).state.winner = some w) :=
  C8_winner_selection fullState okDraw (by decide) (by decide)

end Solttery
